import Mathlib

/-!
Verification development for a PDF annotation tool (`main.py`).

The program keeps an ordered list of annotation descriptors (text or image)
inside an editor object (`EditeurPDF`), then composes them onto the pages of a
source PDF (`EditeurPDF.generer`): descriptors are grouped by page index, each
targeted page gets a fresh overlay canvas of the page's dimensions onto which
the descriptors are painted in registration order, and the overlay is merged
onto the page.  Pages without descriptors pass through unchanged.  The output
file is opened and written only after every page has been processed.

The embedding below transcribes the source: coordinates and sizes are modelled
as rationals, the drawing surface as a trace of canvas operations, and the
failure modes (unresolvable font, malformed color, unreadable image) through
an environment of external collaborators and an `Except` result.
-/

/-- Splitting a string on newline characters, transcribing Python's
`texte.split('\n')` used at line 176 of `main.py`.  Structural recursion over
the character list so that concrete instances evaluate. -/
def splitLinesAux : List Char → List Char → List (List Char)
  | [], acc => [acc.reverse]
  | c :: rest, acc =>
    if c = '\n' then acc.reverse :: splitLinesAux rest []
    else splitLinesAux rest (c :: acc)

/-- `splitLines s` is Python's `s.split('\n')`. -/
def splitLines (s : String) : List String :=
  (splitLinesAux s.data []).map (fun l => String.mk l)

/-- An annotation descriptor: the dictionaries appended by
`EditeurPDF.ajouter_texte` (lines 63-74) and `EditeurPDF.ajouter_image`
(lines 111-122), as a tagged union. -/
inductive Element where
  | texte (texte : String) (x y : ℚ) (page : Int) (taille_police : ℚ)
      (police : String) (couleur : String) (rotation : ℚ) (opacite : ℚ)
  | image (chemin_image : String) (x y : ℚ) (page : Int)
      (largeur hauteur : Option ℚ) (conserver_ratio : Bool)
      (rotation : ℚ) (opacite : ℚ)
  deriving DecidableEq, Repr

/-- The `elem['page']` field of a descriptor. -/
def Element.page : Element → Int
  | .texte _ _ _ p _ _ _ _ _ => p
  | .image _ _ _ p _ _ _ _ _ => p

/-- The `(x, y)` anchor of a descriptor. -/
def Element.pos : Element → ℚ × ℚ
  | .texte _ x y _ _ _ _ _ _ => (x, y)
  | .image _ x y _ _ _ _ _ _ => (x, y)

/-- The editor state: source path plus the descriptor store
(`self.elements`, line 27 of `main.py`). -/
structure EditeurPDF where
  fichier_pdf_entree : String
  elements : List Element
  deriving DecidableEq, Repr

/-- `EditeurPDF.__init__`: store created empty. -/
def EditeurPDF.init (fichier_pdf_entree : String) : EditeurPDF :=
  { fichier_pdf_entree := fichier_pdf_entree, elements := [] }

/-- `EditeurPDF.ajouter_texte`: appends a text descriptor to the store
(line 63). -/
def ajouter_texte (e : EditeurPDF) (texte : String) (x y : ℚ) (page : Int)
    (taille_police : ℚ) (police : String) (couleur : String)
    (rotation : ℚ) (opacite : ℚ) : EditeurPDF :=
  { e with elements := e.elements ++
      [Element.texte texte x y page taille_police police couleur rotation opacite] }

/-- `EditeurPDF.ajouter_image`: appends an image descriptor to the store
(line 111). -/
def ajouter_image (e : EditeurPDF) (chemin_image : String) (x y : ℚ)
    (page : Int) (largeur hauteur : Option ℚ) (conserver_ratio : Bool)
    (rotation : ℚ) (opacite : ℚ) : EditeurPDF :=
  { e with elements := e.elements ++
      [Element.image chemin_image x y page largeur hauteur conserver_ratio
        rotation opacite] }

/-- `EditeurPDF.reinitialiser`: empties the store (line 279). -/
def reinitialiser (e : EditeurPDF) : EditeurPDF :=
  { e with elements := [] }

/-- The count of queued descriptors: `len(self.elements)`, the number printed
by `generer`'s final summary (line 275); the spec calls it `pending_count`. -/
def pending_count (e : EditeurPDF) : ℕ :=
  e.elements.length

/-- Final image dimensions for an image descriptor, transcribing the
`elif` chain at lines 202-227 of `main.py`: `largeur`/`hauteur` are the
requested width/height (`None` = unset), `img_largeur`/`img_hauteur` the
image's natural pixel dimensions. -/
def resolveDims (largeur hauteur : Option ℚ) (conserver_ratio : Bool)
    (img_largeur img_hauteur : ℚ) : ℚ × ℚ :=
  match largeur, hauteur with
  | none, none => (img_largeur, img_hauteur)
  | some l, none =>
    (l, if conserver_ratio then l * (img_hauteur / img_largeur) else img_hauteur)
  | none, some h =>
    ((if conserver_ratio then h * (img_largeur / img_hauteur) else img_largeur), h)
  | some l, some h => (l, h)

/-- One operation on the reportlab canvas, recorded as data. -/
inductive CanvasOp where
  | saveState
  | setFont (police : String) (taille : ℚ)
  | setFillColor (couleur : String)
  | setFillAlpha (a : ℚ)
  | setStrokeAlpha (a : ℚ)
  | translate (x y : ℚ)
  | rotate (deg : ℚ)
  | drawString (x y : ℚ) (s : String)
  | drawImage (chemin : String) (x y w h : ℚ) (preserveAspect maskAuto : Bool)
  | restoreState
  deriving DecidableEq, Repr

/-- Whether an operation is a coordinate-frame rotation. -/
def CanvasOp.isRotate : CanvasOp → Bool
  | .rotate _ => true
  | _ => false

/-- Failure modes surfaced by the external collaborators during composition. -/
inductive GenError where
  | fontUnresolvable (police : String)
  | colorParse (couleur : String)
  | imageUnreadable (chemin : String)
  deriving DecidableEq, Repr

/-- The external collaborators: image decoding (`PIL.Image.open`, returning
natural pixel dimensions or failing), font resolution (`canvas.setFont`) and
hex color parsing (`HexColor`). -/
structure Env where
  images : String → Option (ℚ × ℚ)
  fonts : String → Bool
  colors : String → Bool

/-- An environment in which every image is 1x1 and every font and color
resolves. -/
def envAll : Env :=
  { images := fun _ => some (1, 1), fonts := fun _ => true, colors := fun _ => true }

/-- The canvas operations issued for one descriptor, transcribing the loop
body at lines 162-259 of `main.py` (saveState; for text: setFont,
setFillColor, setFillAlpha, then one drawString per line of the split text,
either in a translated+rotated frame or at absolute coordinates with
1.2-font-size leading; for images: alpha setters then drawImage with the
resolved dimensions; restoreState). -/
def drawElement (env : Env) (elem : Element) : Except GenError (List CanvasOp) :=
  match elem with
  | .texte texte x y _ taille_police police couleur rotation opacite =>
    if env.fonts police = false then Except.error (GenError.fontUnresolvable police)
    else if env.colors couleur = false then Except.error (GenError.colorParse couleur)
    else
      let lignes := splitLines texte
      if rotation ≠ 0 then
        Except.ok ([CanvasOp.saveState, CanvasOp.setFont police taille_police,
            CanvasOp.setFillColor couleur, CanvasOp.setFillAlpha opacite,
            CanvasOp.translate x y, CanvasOp.rotate rotation]
          ++ lignes.enum.map
              (fun pr => CanvasOp.drawString 0 (-(pr.1 : ℚ) * taille_police * (6/5)) pr.2)
          ++ [CanvasOp.restoreState])
      else
        Except.ok ([CanvasOp.saveState, CanvasOp.setFont police taille_police,
            CanvasOp.setFillColor couleur, CanvasOp.setFillAlpha opacite]
          ++ lignes.enum.map
              (fun pr => CanvasOp.drawString x (y - (pr.1 : ℚ) * taille_police * (6/5)) pr.2)
          ++ [CanvasOp.restoreState])
  | .image chemin x y _ largeur hauteur conserver_ratio rotation opacite =>
    match env.images chemin with
    | none => Except.error (GenError.imageUnreadable chemin)
    | some dims =>
      let fin := resolveDims largeur hauteur conserver_ratio dims.1 dims.2
      if rotation ≠ 0 then
        Except.ok [CanvasOp.saveState, CanvasOp.setFillAlpha opacite,
          CanvasOp.setStrokeAlpha opacite, CanvasOp.translate x y,
          CanvasOp.rotate rotation,
          CanvasOp.drawImage chemin 0 0 fin.1 fin.2 conserver_ratio true,
          CanvasOp.restoreState]
      else
        Except.ok [CanvasOp.saveState, CanvasOp.setFillAlpha opacite,
          CanvasOp.setStrokeAlpha opacite,
          CanvasOp.drawImage chemin x y fin.1 fin.2 conserver_ratio true,
          CanvasOp.restoreState]

/-- Paint a list of descriptors in order onto one canvas, concatenating their
operations; the first failing descriptor aborts (the loop at line 162). -/
def drawAll (env : Env) : List Element → Except GenError (List CanvasOp)
  | [] => Except.ok []
  | elem :: rest =>
    match drawElement env elem with
    | Except.error er => Except.error er
    | Except.ok ops =>
      match drawAll env rest with
      | Except.error er => Except.error er
      | Except.ok opsRest => Except.ok (ops ++ opsRest)

/-- The descriptors targeting page `p`, in registration order: the per-key
list of the `elements_par_page` dictionary built at lines 140-145. -/
def elementsForPage (es : List Element) (p : Int) : List Element :=
  es.filter (fun elem => elem.page == p)

/-- A source page: its mediabox dimensions and (abstract) existing content. -/
structure SrcPage where
  width : ℚ
  height : ℚ
  content : ℕ
  deriving DecidableEq, Repr

/-- A finalized overlay surface: page-sized canvas plus the painted
operations. -/
structure Overlay where
  width : ℚ
  height : ℚ
  ops : List CanvasOp
  deriving DecidableEq, Repr

/-- An output page: either the original page passed through unmodified, or
the original page merged with an overlay (`page_existante.merge_page`,
line 266). -/
inductive OutPage where
  | plain (p : SrcPage)
  | merged (p : SrcPage) (overlay : Overlay)
  deriving DecidableEq, Repr

/-- The page loop of `generer` (lines 148-268) from page index `i` on: a page
with no descriptors is passed through; otherwise an overlay of the page's
dimensions is painted and merged.  A painting failure aborts the whole run. -/
def processFrom (env : Env) (es : List Element) : Int → List SrcPage →
    Except GenError (List OutPage)
  | _, [] => Except.ok []
  | i, p :: rest =>
    if elementsForPage es i = [] then
      match processFrom env es (i + 1) rest with
      | Except.error er => Except.error er
      | Except.ok out => Except.ok (OutPage.plain p :: out)
    else
      match drawAll env (elementsForPage es i) with
      | Except.error er => Except.error er
      | Except.ok ops =>
        match processFrom env es (i + 1) rest with
        | Except.error er => Except.error er
        | Except.ok out =>
          Except.ok (OutPage.merged p (Overlay.mk p.width p.height ops) :: out)

/-- The whole page loop of `generer`, starting at page index 0. -/
def processPages (env : Env) (es : List Element) (doc : List SrcPage) :
    Except GenError (List OutPage) :=
  processFrom env es 0 doc

/-- Outcome of one `generer` call: either it aborted with an error (no output
file written), or it wrote the composed page list and printed a summary with
the total element count. -/
inductive GenOutcome where
  | failed (er : GenError)
  | written (file : List OutPage) (summaryCount : ℕ)
  deriving DecidableEq, Repr

/-- `EditeurPDF.generer` (lines 126-275): process every page, and only after
the loop has fully succeeded open the output target, write the composed pages
and print the summary `len(self.elements)`. -/
def generer (env : Env) (e : EditeurPDF) (doc : List SrcPage) : GenOutcome :=
  match processPages env e.elements doc with
  | Except.error er => GenOutcome.failed er
  | Except.ok pages => GenOutcome.written pages e.elements.length

/-- The output file produced by a `generer` call, `none` when no file was
written. -/
def fileWritten : GenOutcome → Option (List OutPage)
  | GenOutcome.failed _ => none
  | GenOutcome.written file _ => some file

/-- `generer` as a state transformer on the editor: the method only reads
`self.elements` (no assignment to it anywhere in lines 126-275), so the
resulting editor state is the incoming one, paired with the outcome. -/
def genererS (env : Env) (e : EditeurPDF) (doc : List SrcPage) :
    EditeurPDF × GenOutcome :=
  (e, generer env e doc)

/-- The boilerplate paragraph queued by `signer_pdf_region` (lines 328-330;
Python's adjacent string literals concatenate). -/
def loremText : String :=
  "Lorem ipsum dolor sit amet, consectetur adipiscing elit. \n" ++
  "Pellentesque fermentum aliquam urna eu bibendum. \n" ++
  "Morbi sit amet blandit purus."

/-- The signer-name/date block queued by `signer_pdf_region` (lines 341-343),
parameterized by the formatted current date. -/
def signatureText (today : String) : String :=
  "M. John Doe\n" ++ "Certified Adobe\n" ++ ("Signé le " ++ today)

/-- `signer_pdf_region` (lines 283-350): queue the logo image at
`(x+135, y-35)` sized 70x70, the boilerplate text at `(x, y)` in 6pt
Helvetica-Bold, and the signature text at `(x_adobe+35, y+5)` in 8pt
Helvetica-Bold, then return the editor.  `datetime.now()` is modelled by the
`today` parameter. -/
def signer_pdf_region (e : EditeurPDF) (x y : ℚ) (page : Int)
    (largeur hauteur : Option ℚ) (conserver_ratio : Bool)
    (chemin_logo_adobe : String) (today : String) : EditeurPDF :=
  let x_adobe := x + 135
  let y_adobe := y - 35
  let e1 := ajouter_image e chemin_logo_adobe x_adobe y_adobe page
      (some 70) (some 70) conserver_ratio 0 1
  let e2 := ajouter_texte e1 loremText x y page 6 "Helvetica-Bold" "#000000" 0 1
  let x_signature := x_adobe + 35
  let y_signature := y + 5
  let e3 := ajouter_texte e2 (signatureText today) x_signature y_signature page
      8 "Helvetica-Bold" "#000000" 0 1
  e3

/-- An environment in which no image resource is readable. -/
def envNoImages : Env :=
  { images := fun _ => none, fonts := fun _ => true, colors := fun _ => true }

/-- A letter-sized blank source page used in concrete instances. -/
def pageLetter : SrcPage :=
  { width := 612, height := 792, content := 0 }

/-- An editor holding one image descriptor, used in concrete instances. -/
def edOneImage : EditeurPDF :=
  ajouter_image (EditeurPDF.init "document.pdf") "resources/adobe_logo.png"
    0 0 0 none none true 0 1

/-- An editor holding one text descriptor, used in concrete instances. -/
def edOneText : EditeurPDF :=
  ajouter_texte (EditeurPDF.init "document.pdf") "Hi" 0 0 0 12 "Helvetica"
    "#000000" 0 1

/-- A text descriptor targeting page 5, used in concrete instances. -/
def badPageElem : Element :=
  Element.texte "late" 0 0 5 12 "Helvetica" "#000000" 0 1

/-- With an empty store, the page loop passes every page through unmodified
from any starting index. -/
theorem processFrom_nil (env : Env) :
    ∀ (doc : List SrcPage) (i : Int),
      processFrom env [] i doc = Except.ok (doc.map OutPage.plain) := by
  intro doc
  induction doc with
  | nil => intro i; rfl
  | cons p rest ih =>
    intro i
    simp [processFrom, elementsForPage, ih (i + 1)]

/-- The page loop only consults the store through `elementsForPage` at the
page indices it visits. -/
theorem processFrom_congr (env : Env) :
    ∀ (doc : List SrcPage) (i : Int) (es es' : List Element),
      (∀ j : Int, i ≤ j → j < i + doc.length →
        elementsForPage es j = elementsForPage es' j) →
      processFrom env es i doc = processFrom env es' i doc := by
  intro doc
  induction doc with
  | nil => intro i es es' _; rfl
  | cons p rest ih =>
    intro i es es' h
    have hi : elementsForPage es i = elementsForPage es' i := by
      apply h i le_rfl
      simp only [List.length_cons]
      push_cast
      omega
    have hr : processFrom env es (i + 1) rest = processFrom env es' (i + 1) rest := by
      apply ih (i + 1) es es'
      intro j hj1 hj2
      apply h j (by omega)
      simp only [List.length_cons] at hj2 ⊢
      push_cast at hj2 ⊢
      omega
    simp only [processFrom, hi, hr]

/-- If every descriptor's page index lies outside the processed index range,
the page loop passes every page through unmodified. -/
theorem processFrom_all_out (env : Env) :
    ∀ (doc : List SrcPage) (i : Int) (es : List Element),
      (∀ b ∈ es, b.page < i ∨ i + doc.length ≤ b.page) →
      processFrom env es i doc = Except.ok (doc.map OutPage.plain) := by
  intro doc
  induction doc with
  | nil => intro i es _; rfl
  | cons p rest ih =>
    intro i es h
    have hnil : elementsForPage es i = [] := by
      apply List.filter_eq_nil_iff.mpr
      intro b hb
      rcases h b hb with h1 | h1
      · simp only [beq_iff_eq]
        omega
      · simp only [beq_iff_eq]
        simp only [List.length_cons] at h1
        push_cast at h1
        omega
    have hr : processFrom env es (i + 1) rest = Except.ok (rest.map OutPage.plain) := by
      apply ih (i + 1) es
      intro b hb
      rcases h b hb with h1 | h1
      · exact Or.inl (by omega)
      · right
        simp only [List.length_cons] at h1
        push_cast at h1 ⊢
        omega
    simp [processFrom, hnil, hr]

/-- C1: with zero queued descriptors, `generer` copies every page of the
document unmodified into the output in original order — no overlay is
created and no merge happens (every output page is `OutPage.plain`), and the
summary counts zero elements. -/
theorem generer_empty_store (env : Env) (e : EditeurPDF) (doc : List SrcPage)
    (h : e.elements = []) :
    generer env e doc = GenOutcome.written (doc.map OutPage.plain) 0 := by
  simp [generer, processPages, h, processFrom_nil]

/-- Concrete instance of `generer_empty_store`: a fresh editor over a
one-page document. -/
theorem generer_empty_store_witness :
    generer envAll (EditeurPDF.init "document.pdf") [pageLetter]
      = GenOutcome.written [OutPage.plain pageLetter] 0 := by
  have h := generer_empty_store envAll (EditeurPDF.init "document.pdf") [pageLetter] rfl
  simpa using h

/-- C2: the final render dimensions of an image descriptor — natural pixel
dimensions when both width and height are unset; when one is set with
aspect-ratio preservation, the other is derived from the natural ratio; with
preservation off, an unset dimension falls back to the natural pixel size in
that axis; when both are set they are used as given. -/
theorem resolveDims_spec (w h nw nh : ℚ) (cr : Bool) :
    resolveDims none none cr nw nh = (nw, nh)
    ∧ resolveDims (some w) none true nw nh = (w, w * (nh / nw))
    ∧ resolveDims none (some h) true nw nh = (h * (nw / nh), h)
    ∧ resolveDims (some w) none false nw nh = (w, nh)
    ∧ resolveDims none (some h) false nw nh = (nw, h)
    ∧ resolveDims (some w) (some h) cr nw nh = (w, h) :=
  ⟨rfl, rfl, rfl, rfl, rfl, rfl⟩

/-- C5: one call to `signer_pdf_region` appends exactly three descriptors in
order — logo image at `(x+135, y-35)` sized 70x70, boilerplate text at
`(x, y)` in 6pt Helvetica-Bold, and the signature text at `(x+170, y+5)` in
8pt Helvetica-Bold; at anchor `(50, 150)` the positions are `(185, 115)`,
`(50, 150)` and `(220, 155)`. -/
theorem signer_pdf_region_queues_three (e : EditeurPDF) (x y : ℚ) (page : Int)
    (largeur hauteur : Option ℚ) (cr : Bool) (logo today : String) :
    (signer_pdf_region e x y page largeur hauteur cr logo today).elements
      = e.elements ++
        [Element.image logo (x + 135) (y - 35) page (some 70) (some 70) cr 0 1,
         Element.texte loremText x y page 6 "Helvetica-Bold" "#000000" 0 1,
         Element.texte (signatureText today) (x + 170) (y + 5) page 8
           "Helvetica-Bold" "#000000" 0 1]
    ∧ (signer_pdf_region e 50 150 page largeur hauteur cr logo today).elements.map
          Element.pos
        = e.elements.map Element.pos ++ [(185, 115), (50, 150), (220, 155)] := by
  have hx : x + 135 + 35 = x + 170 := by ring
  constructor
  · simp [signer_pdf_region, ajouter_image, ajouter_texte, hx]
  · simp [signer_pdf_region, ajouter_image, ajouter_texte, Element.pos]
    norm_num

/-- C7: if the page loop fails on any page, the whole `generer` call fails
with that error and no output file is written; conversely an output file is
written exactly when every page was processed successfully, and it holds the
processed pages. -/
theorem generer_failure_writes_nothing (env : Env) (e : EditeurPDF)
    (doc : List SrcPage) (er : GenError) :
    (processPages env e.elements doc = Except.error er →
      generer env e doc = GenOutcome.failed er
      ∧ fileWritten (generer env e doc) = none)
    ∧ (∀ file c, generer env e doc = GenOutcome.written file c →
      processPages env e.elements doc = Except.ok file
      ∧ fileWritten (generer env e doc) = some file) := by
  constructor
  · intro h
    have h1 : generer env e doc = GenOutcome.failed er := by
      unfold generer
      rw [h]
    exact ⟨h1, by rw [h1]; rfl⟩
  · intro file c h
    unfold generer at h
    cases hp : processPages env e.elements doc with
    | error er2 => rw [hp] at h; exact absurd h (by simp)
    | ok pages =>
      rw [hp] at h
      simp only [GenOutcome.written.injEq] at h
      refine ⟨by rw [h.1], ?_⟩
      unfold generer
      rw [hp, h.1]
      rfl

/-- Concrete instance of `generer_failure_writes_nothing`: an unreadable
image resource aborts composition and no file is written. -/
theorem generer_failure_writes_nothing_witness :
    fileWritten (generer envNoImages edOneImage [pageLetter]) = none :=
  ((generer_failure_writes_nothing envNoImages edOneImage [pageLetter]
    (GenError.imageUnreadable "resources/adobe_logo.png")).1 rfl).2

/-- C8: `generer` treats the store as read-only — the editor state after the
call is exactly the state before it — and a second composition of the same
store against the same document yields the identical outcome. -/
theorem generer_preserves_store (env : Env) (e : EditeurPDF)
    (doc : List SrcPage) :
    (genererS env e doc).1 = e
    ∧ (genererS env e doc).1.elements = e.elements
    ∧ (genererS env ((genererS env e doc).1) doc).2 = (genererS env e doc).2 :=
  ⟨rfl, rfl, rfl⟩

/-- C9: `pending_count` returns the number of queued descriptors in every
store state — it is the count reported by `generer`'s final summary, starts
at 0, increases by one on each append, and returns to 0 on reset. -/
theorem pending_count_spec :
    (∀ env e doc file c, generer env e doc = GenOutcome.written file c →
      c = pending_count e)
    ∧ (∀ f, pending_count (EditeurPDF.init f) = 0)
    ∧ (∀ e texte x y page t police couleur rot op,
      pending_count (ajouter_texte e texte x y page t police couleur rot op)
        = pending_count e + 1)
    ∧ (∀ e chemin x y page l h cr rot op,
      pending_count (ajouter_image e chemin x y page l h cr rot op)
        = pending_count e + 1)
    ∧ (∀ e, pending_count (reinitialiser e) = 0) := by
  refine ⟨?_, fun f => rfl, ?_, ?_, fun e => rfl⟩
  · intro env e doc file c h
    unfold generer at h
    cases hp : processPages env e.elements doc with
    | error er => rw [hp] at h; exact absurd h (by simp)
    | ok pages =>
      rw [hp] at h
      simp only [GenOutcome.written.injEq] at h
      exact h.2.symm
  · intro e texte x y page t police couleur rot op
    simp [pending_count, ajouter_texte]
  · intro e chemin x y page l h cr rot op
    simp [pending_count, ajouter_image]

/-- Concrete instance of `pending_count_spec`: the summary count of a
successful run over an editor holding one descriptor is its pending count. -/
theorem pending_count_spec_witness : (1 : ℕ) = pending_count edOneText :=
  pending_count_spec.1 envAll edOneText [] [] 1 rfl

/-- C10: `signer_pdf_region` ignores its `largeur` and `hauteur` parameters
entirely — the result is the same for any values — the logo descriptor it
queues is always sized 70x70, and it returns the editor it was given (same
source path, its store extended by exactly the three queued descriptors). -/
theorem signer_pdf_region_ignores_size (e : EditeurPDF) (x y : ℚ) (page : Int)
    (l1 h1 l2 h2 : Option ℚ) (cr : Bool) (logo today : String) :
    signer_pdf_region e x y page l1 h1 cr logo today
      = signer_pdf_region e x y page l2 h2 cr logo today
    ∧ (signer_pdf_region e x y page l1 h1 cr logo today).fichier_pdf_entree
      = e.fichier_pdf_entree
    ∧ (signer_pdf_region e x y page l1 h1 cr logo today).elements.drop
        e.elements.length
      = [Element.image logo (x + 135) (y - 35) page (some 70) (some 70) cr 0 1,
         Element.texte loremText x y page 6 "Helvetica-Bold" "#000000" 0 1,
         Element.texte (signatureText today) (x + 135 + 35) (y + 5) page 8
           "Helvetica-Bold" "#000000" 0 1]
    ∧ (signer_pdf_region e x y page l1 h1 cr logo today).elements.length
      = e.elements.length + 3 := by
  refine ⟨rfl, rfl, ?_, ?_⟩
  · simp [signer_pdf_region, ajouter_image, ajouter_texte]
  · simp [signer_pdf_region, ajouter_image, ajouter_texte]

/-- C3: a text descriptor with rotation 0 draws line `k` of its newline-split
text at horizontal position `x` and vertical position
`y - k * taille_police * 1.2`, with no frame transform. -/
theorem texte_lines_no_rotation (env : Env) (texte : String) (x y : ℚ)
    (page : Int) (taille_police : ℚ) (police couleur : String) (opacite : ℚ)
    (hf : env.fonts police = true) (hc : env.colors couleur = true) :
    drawElement env
        (Element.texte texte x y page taille_police police couleur 0 opacite)
      = Except.ok ([CanvasOp.saveState, CanvasOp.setFont police taille_police,
          CanvasOp.setFillColor couleur, CanvasOp.setFillAlpha opacite]
        ++ (splitLines texte).enum.map
            (fun pr =>
              CanvasOp.drawString x (y - (pr.1 : ℚ) * taille_police * (6/5)) pr.2)
        ++ [CanvasOp.restoreState]) := by
  simp [drawElement, hf, hc]

/-- Concrete instance of `texte_lines_no_rotation`: the descriptor
`("Hello\nWorld", x=10, y=700, fontSize=10)` draws "Hello" at y 700 and
"World" at y 688. -/
theorem texte_lines_no_rotation_witness :
    drawElement envAll
        (Element.texte "Hello\nWorld" 10 700 0 10 "Helvetica" "#000000" 0 1)
      = Except.ok [CanvasOp.saveState, CanvasOp.setFont "Helvetica" 10,
          CanvasOp.setFillColor "#000000", CanvasOp.setFillAlpha 1,
          CanvasOp.drawString 10 700 "Hello", CanvasOp.drawString 10 688 "World",
          CanvasOp.restoreState] := by
  have h := texte_lines_no_rotation envAll "Hello\nWorld" 10 700 0 10
    "Helvetica" "#000000" 1 rfl rfl
  have hs : splitLines "Hello\nWorld" = ["Hello", "World"] := by decide
  rw [h, hs]
  simp [List.enum, List.enumFrom]
  norm_num

/-- C4: a text descriptor with nonzero rotation first translates the origin
to `(x, y)`, rotates the frame by the descriptor's angle exactly once, and
only then draws line `k` at `(0, -k * taille_police * 1.2)` in the rotated
frame — a single shared rotation, applied before any line is drawn. -/
theorem texte_lines_with_rotation (env : Env) (texte : String) (x y : ℚ)
    (page : Int) (taille_police : ℚ) (police couleur : String)
    (rotation opacite : ℚ) (hr : rotation ≠ 0)
    (hf : env.fonts police = true) (hc : env.colors couleur = true) :
    drawElement env
        (Element.texte texte x y page taille_police police couleur rotation opacite)
      = Except.ok ([CanvasOp.saveState, CanvasOp.setFont police taille_police,
          CanvasOp.setFillColor couleur, CanvasOp.setFillAlpha opacite,
          CanvasOp.translate x y, CanvasOp.rotate rotation]
        ++ (splitLines texte).enum.map
            (fun pr =>
              CanvasOp.drawString 0 (-(pr.1 : ℚ) * taille_police * (6/5)) pr.2)
        ++ [CanvasOp.restoreState])
    ∧ List.countP (fun o => CanvasOp.isRotate o)
        ([CanvasOp.saveState, CanvasOp.setFont police taille_police,
          CanvasOp.setFillColor couleur, CanvasOp.setFillAlpha opacite,
          CanvasOp.translate x y, CanvasOp.rotate rotation]
        ++ (splitLines texte).enum.map
            (fun pr =>
              CanvasOp.drawString 0 (-(pr.1 : ℚ) * taille_police * (6/5)) pr.2)
        ++ [CanvasOp.restoreState]) = 1 := by
  constructor
  · simp [drawElement, hf, hc, hr]
  · have hz : List.countP (fun o => CanvasOp.isRotate o)
        ((splitLines texte).enum.map
          (fun pr =>
            CanvasOp.drawString 0 (-(pr.1 : ℚ) * taille_police * (6/5)) pr.2)) = 0 := by
      apply List.countP_eq_zero.mpr
      intro o ho
      simp only [List.mem_map] at ho
      obtain ⟨pr, _, hpr⟩ := ho
      rw [← hpr]
      simp [CanvasOp.isRotate]
    simp [List.countP_append, List.countP_cons, CanvasOp.isRotate, hz]

/-- Concrete instance of `texte_lines_with_rotation`: a two-line text rotated
by 90 degrees is drawn as translate, one rotate, then both lines in the
rotated frame. -/
theorem texte_lines_with_rotation_witness :
    drawElement envAll
        (Element.texte "A\nB" 5 7 0 10 "Helvetica" "#000000" 90 1)
      = Except.ok [CanvasOp.saveState, CanvasOp.setFont "Helvetica" 10,
          CanvasOp.setFillColor "#000000", CanvasOp.setFillAlpha 1,
          CanvasOp.translate 5 7, CanvasOp.rotate 90,
          CanvasOp.drawString 0 0 "A", CanvasOp.drawString 0 (-12) "B",
          CanvasOp.restoreState] := by
  have h := texte_lines_with_rotation envAll "A\nB" 5 7 0 10 "Helvetica"
    "#000000" 90 1 (by norm_num) rfl rfl
  have hs : splitLines "A\nB" = ["A", "B"] := by decide
  rw [h.1, hs]
  simp [List.enum, List.enumFrom]
  norm_num

/-- C6: a descriptor whose page index has no corresponding page (negative or
at least the page count) is never rendered and its presence does not change
the composed output; in particular a store holding only such descriptors
composes without error into the unmodified page sequence. -/
theorem out_of_range_page_never_rendered :
    (∀ (env : Env) (es1 es2 : List Element) (bad : Element)
        (doc : List SrcPage),
      (bad.page < 0 ∨ (doc.length : Int) ≤ bad.page) →
      processPages env (es1 ++ bad :: es2) doc
        = processPages env (es1 ++ es2) doc)
    ∧ (∀ (env : Env) (e : EditeurPDF) (doc : List SrcPage),
      (∀ b ∈ e.elements, b.page < 0 ∨ (doc.length : Int) ≤ b.page) →
      generer env e doc
        = GenOutcome.written (doc.map OutPage.plain) (pending_count e)) := by
  constructor
  · intro env es1 es2 bad doc hbad
    apply processFrom_congr
    intro j hj1 hj2
    have hne : (bad.page == j) = false := by
      simp only [beq_eq_false_iff_ne, ne_eq]
      rcases hbad with h1 | h1 <;> omega
    simp [elementsForPage, List.filter_append, List.filter_cons, hne]
  · intro env e doc h
    unfold generer processPages
    rw [processFrom_all_out env doc 0 e.elements]
    · rfl
    · intro b hb
      rcases h b hb with h1 | h1
      · exact Or.inl (by omega)
      · right
        omega

/-- Concrete instance of `out_of_range_page_never_rendered`: a descriptor
targeting page 5 of a one-page document changes nothing. -/
theorem out_of_range_page_never_rendered_witness :
    processPages envAll [badPageElem] [pageLetter]
      = processPages envAll [] [pageLetter] :=
  out_of_range_page_never_rendered.1 envAll [] [] badPageElem [pageLetter]
    (Or.inr (by decide))
